import Mathlib

/-!
# Verification of the nullex UEFI boot loader (`src/uefi/UefiMain.c`)

A shallow embedding of the loader in Lean 4.  Machine integers (`UINTN`,
`UINT64` — both 64 bits wide on the x86_64 target) are modelled as `Nat`
with explicit `% 2 ^ 64` at the points where the C arithmetic can wrap.
Firmware services (`gBS->GetMemoryMap`, `gBS->AllocatePages`, file I/O, …)
are modelled by an environment record supplying each call's status and
output values; every call the loader makes is recorded in an event trace so
that the ordering claims (allocation between map snapshot and
`ExitBootServices`, behaviour after `ExitBootServices`) can be stated.
Pointer values are not modelled: a pool allocation is recorded as an event
with its requested byte size, and "the five output parameters of
`get_and_copy_memory_map` were written" is modelled by the function
returning `some` of a record holding the four numeric outputs (the fifth,
the map pointer, is written by the same lines of code as the others and is
covered by the same `Option`).
-/

set_option autoImplicit false

namespace Nullex

/-! ## EFI status codes (EDK2 encodings; errors have bit 63 set) -/

def EFI_SUCCESS : Nat := 0
def EFI_INVALID_PARAMETER : Nat := 0x8000000000000002
def EFI_BUFFER_TOO_SMALL : Nat := 0x8000000000000005
def EFI_DEVICE_ERROR : Nat := 0x8000000000000007
def EFI_OUT_OF_RESOURCES : Nat := 0x8000000000000009

/-- `EFI_ERROR(Status)` from EDK2: the status is an error iff its top bit
(bit 63 of the 64-bit word) is set. -/
def EFI_ERROR (s : Nat) : Prop := 2 ^ 63 ≤ s

instance (s : Nat) : Decidable (EFI_ERROR s) := by unfold EFI_ERROR; infer_instance

/-! ## Events: every firmware-service call the loader makes, in order -/

/-- Allocation mode argument of `gBS->AllocatePages` (EFI enum
`EFI_ALLOCATE_TYPE`). -/
inductive AllocMode where
  | allocateAnyPages
  | allocateMaxAddress
  | allocateAddress
  deriving DecidableEq, Repr

/-- The handoff record (`BOOT_INFO` in the C source).  The C struct's first
field is the memory-map pointer; pointers are not modelled, so the record
holds the four numeric fields plus the resolved entry. -/
structure BOOT_INFO where
  memory_map_size : Nat
  descriptor_size : Nat
  descriptor_version : Nat
  physical_memory_offset : Nat
  kernel_entry_phys : Nat
  deriving DecidableEq, Repr

/-- One firmware-service call (or the final control transfer) made by the
loader.  Numeric arguments that the ordering claims talk about are carried
on the event. -/
inductive Event where
  /-- `gBS->GetMemoryMap` with the given buffer size. -/
  | getMemoryMap (bufSize : Nat)
  /-- `AllocatePool` with the given byte size. -/
  | allocatePool (size : Nat)
  /-- `FreePool`. -/
  | freePool
  /-- `gBS->AllocatePages` with mode, page count and requested address. -/
  | allocatePages (mode : AllocMode) (pages : Nat) (addr : Nat)
  /-- `gBS->HandleProtocol`. -/
  | handleProtocol
  /-- `SimpleFs->OpenVolume`. -/
  | openVolume
  /-- `Root->Open` of the kernel path. -/
  | openFile
  /-- `KernelFile->GetInfo` with the given buffer size. -/
  | getInfo (bufSize : Nat)
  /-- `KernelFile->Read` asking for the given byte count. -/
  | readFile (size : Nat)
  /-- `KernelFile->Close`. -/
  | closeFile
  /-- `Print` (console output via boot services). -/
  | print
  /-- `gBS->ExitBootServices` with the given map key. -/
  | exitBootServices (mapKey : Nat)
  /-- The terminal control transfer: the resolved entry address called with
  its single argument, the handoff record. -/
  | kernelCall (entry : Nat) (arg : BOOT_INFO)
  deriving DecidableEq, Repr

namespace Event

/-- Is this event the `ExitBootServices` call? -/
def isEBS : Event → Bool
  | .exitBootServices _ => true
  | _ => false

/-- Is this event a `GetMemoryMap` query? -/
def isGetMemoryMap : Event → Bool
  | .getMemoryMap _ => true
  | _ => false

/-- Is this event a firmware allocation (`AllocatePool` or
`AllocatePages`)? -/
def isAlloc : Event → Bool
  | .allocatePool _ => true
  | .allocatePages _ _ _ => true
  | _ => false

/-- Is this event an `AllocatePages` call? -/
def isAllocPages : Event → Bool
  | .allocatePages _ _ _ => true
  | _ => false

/-- Is this event an `AllocatePool` call? -/
def isAllocPool : Event → Bool
  | .allocatePool _ => true
  | _ => false

end Event

/-! ## `get_and_copy_memory_map` (UefiMain.c lines 22–57) -/

/-- The four numeric values `get_and_copy_memory_map` writes through its
output parameters on success (the fifth output, the map pointer, is written
on the same code path and is represented by the surrounding `Option`). -/
structure MemMapOut where
  map_size : Nat
  descriptor_size : Nat
  descriptor_version : Nat
  map_key : Nat
  deriving DecidableEq, Repr

/-- Firmware behaviour seen by `get_and_copy_memory_map`: the status and
output values of the two `GetMemoryMap` calls and whether the intervening
`AllocatePool` succeeds.  All numeric fields are 64-bit values. -/
structure MemMapEnv where
  /-- Status of the first `GetMemoryMap` call (zero-sized buffer). -/
  probeStatus : Nat
  /-- Required byte size written by the probe call. -/
  probeSize : Nat
  /-- Descriptor stride written by the probe call. -/
  probeDescSize : Nat
  /-- Whether `AllocatePool` for the map buffer returns non-NULL. -/
  allocOk : Bool
  /-- Status of the second `GetMemoryMap` call. -/
  fetchStatus : Nat
  /-- Used byte size written by the second call. -/
  fetchSize : Nat
  /-- Descriptor stride written by the second call. -/
  fetchDescSize : Nat
  /-- Descriptor version written by the second call. -/
  fetchDescVer : Nat
  /-- Map key written by the second call. -/
  fetchKey : Nat
  deriving Repr

/-- `get_and_copy_memory_map` (lines 22–57): probe `GetMemoryMap` with a
zero-sized buffer; on any status other than `EFI_BUFFER_TOO_SMALL` return
that status.  Otherwise grow the reported size by ten descriptor strides
(64-bit `UINTN` addition, hence `% 2 ^ 64`), `AllocatePool` that many
bytes, call `GetMemoryMap` again, freeing the buffer and returning the
status on error, and on success return `EFI_SUCCESS` with the five outputs
written.  Result: (returned status, outputs if written, event trace). -/
def get_and_copy_memory_map (env : MemMapEnv) : Nat × Option MemMapOut × List Event :=
  if env.probeStatus ≠ EFI_BUFFER_TOO_SMALL then
    (env.probeStatus, none, [Event.getMemoryMap 0])
  else
    let map_size := (env.probeSize + env.probeDescSize * 10) % 2 ^ 64
    if env.allocOk = false then
      (EFI_OUT_OF_RESOURCES, none, [Event.getMemoryMap 0, Event.allocatePool map_size])
    else
      if EFI_ERROR env.fetchStatus then
        (env.fetchStatus, none,
          [Event.getMemoryMap 0, Event.allocatePool map_size,
           Event.getMemoryMap map_size, Event.freePool])
      else
        (EFI_SUCCESS,
         some ⟨env.fetchSize, env.fetchDescSize, env.fetchDescVer, env.fetchKey⟩,
         [Event.getMemoryMap 0, Event.allocatePool map_size,
          Event.getMemoryMap map_size])

/-! ## Pure pieces of `load_kernel_to_1m` -/

/-- Page-count computation (lines 131–132):
`Pages = (UINTN)((kernel_size + 0xFFF) / 0x1000); if (Pages == 0) Pages = 1;`
with the addition performed in 64-bit `UINT64` arithmetic. -/
def pages_for (kernel_size : Nat) : Nat :=
  let p := ((kernel_size + 0xFFF) % 2 ^ 64) / 0x1000
  if p = 0 then 1 else p

/-- The unaligned 64-bit little-endian load `*(UINT64*)(bytes + off)`
performed on x86_64: byte at `off` is least significant. -/
def le64_at (bytes : List Nat) (off : Nat) : Nat :=
  bytes.getD off 0
    + bytes.getD (off + 1) 0 * 0x100
    + bytes.getD (off + 2) 0 * 0x10000
    + bytes.getD (off + 3) 0 * 0x1000000
    + bytes.getD (off + 4) 0 * 0x100000000
    + bytes.getD (off + 5) 0 * 0x10000000000
    + bytes.getD (off + 6) 0 * 0x1000000000000
    + bytes.getD (off + 7) 0 * 0x100000000000000

/-- Does the buffer start with the ELF magic `0x7f 'E' 'L' 'F'`
(the `bytes[0..3]` comparison on line 157)? -/
def isElfMagic (bytes : List Nat) : Prop :=
  bytes.getD 0 0 = 0x7f ∧ bytes.getD 1 0 = 0x45 ∧
  bytes.getD 2 0 = 0x4c ∧ bytes.getD 3 0 = 0x46

instance (bytes : List Nat) : Decidable (isElfMagic bytes) := by
  unfold isElfMagic; infer_instance

/-- Entry resolution (lines 155–167): if the file size is at least `0x40`
and the loaded bytes start with the ELF magic, the entry is the 64-bit
little-endian field at offset 24; otherwise the entry defaults to the load
address. -/
def resolve_entry (kernel_size : Nat) (bytes : List Nat) (loadAddr : Nat) : Nat :=
  if 0x40 ≤ kernel_size ∧ isElfMagic bytes then le64_at bytes 24 else loadAddr

/-! ## `load_kernel_to_1m` (UefiMain.c lines 61–175) -/

/-- Firmware behaviour seen by `load_kernel_to_1m`: status/output of each
protocol, file and allocation call, and the file content. -/
structure LoadEnv where
  /-- Status of `HandleProtocol(ImageHandle, LoadedImage)`. -/
  hpLoadedImage : Nat
  /-- Status of `HandleProtocol(DeviceHandle, SimpleFileSystem)`. -/
  hpSimpleFs : Nat
  /-- Status of `OpenVolume`. -/
  openVolumeStatus : Nat
  /-- Status of `Root->Open` on `\BOOT\KERNEL_X.BIN`. -/
  openFileStatus : Nat
  /-- Status of the first `GetInfo` call (size probe with NULL buffer). -/
  infoProbeStatus : Nat
  /-- Required info size written by the probe. -/
  fileInfoSize : Nat
  /-- Whether `AllocatePool(FileInfoSize)` returns non-NULL. -/
  fileInfoAllocOk : Bool
  /-- Status of the second `GetInfo` call. -/
  getInfoStatus : Nat
  /-- `FileInfo->FileSize`, a 64-bit value. -/
  fileSize : Nat
  /-- Status of `gBS->AllocatePages`. -/
  allocPagesStatus : Nat
  /-- Status of `KernelFile->Read`. -/
  readStatus : Nat
  /-- Byte count written back through `ReadSize` by the read call. -/
  readCount : Nat
  /-- The bytes the read places at the load address. -/
  fileBytes : List Nat
  deriving Repr

/-- Result of `load_kernel_to_1m`: status, the value written through
`out_entry_phys` (only on success), the value written through
`out_file_size` (written as soon as `FileInfo` is read, line 128), and the
event trace. -/
structure LoadResult where
  status : Nat
  entry : Option Nat
  file_size : Option Nat
  trace : List Event
  deriving Repr

/-- The fixed physical load address, 1 MiB (line 70/135). -/
def LoadAddr : Nat := 0x00100000

/-- `load_kernel_to_1m` (lines 61–175), translated branch by branch:
resolve the two protocols, open the volume and the kernel file, probe and
fetch `FileInfo`, allocate `pages_for FileSize` pages at the fixed address
1 MiB with `AllocateAddress`, read the file (short read or read error is
`EFI_DEVICE_ERROR`), resolve the entry from the loaded bytes, free the
info buffer, close the file and return the entry. -/
def load_kernel_to_1m (env : LoadEnv) : LoadResult :=
  if EFI_ERROR env.hpLoadedImage then
    ⟨env.hpLoadedImage, none, none, [Event.handleProtocol, Event.print]⟩
  else if EFI_ERROR env.hpSimpleFs then
    ⟨env.hpSimpleFs, none, none,
      [Event.handleProtocol, Event.handleProtocol, Event.print]⟩
  else if EFI_ERROR env.openVolumeStatus then
    ⟨env.openVolumeStatus, none, none,
      [Event.handleProtocol, Event.handleProtocol, Event.openVolume, Event.print]⟩
  else if EFI_ERROR env.openFileStatus then
    ⟨env.openFileStatus, none, none,
      [Event.handleProtocol, Event.handleProtocol, Event.openVolume,
       Event.openFile, Event.print]⟩
  else
    let tr0 := [Event.handleProtocol, Event.handleProtocol, Event.openVolume,
                Event.openFile, Event.getInfo 0]
    if env.infoProbeStatus ≠ EFI_BUFFER_TOO_SMALL ∧ EFI_ERROR env.infoProbeStatus then
      ⟨env.infoProbeStatus, none, none, tr0 ++ [Event.print, Event.closeFile]⟩
    else
      let tr1 := tr0 ++ [Event.allocatePool env.fileInfoSize]
      if env.fileInfoAllocOk = false then
        ⟨EFI_OUT_OF_RESOURCES, none, none, tr1 ++ [Event.closeFile]⟩
      else
        let tr2 := tr1 ++ [Event.getInfo env.fileInfoSize]
        if EFI_ERROR env.getInfoStatus then
          ⟨env.getInfoStatus, none, none,
            tr2 ++ [Event.print, Event.freePool, Event.closeFile]⟩
        else
          let kernel_size := env.fileSize
          let tr3 := tr2 ++
            [Event.allocatePages AllocMode.allocateAddress (pages_for kernel_size) LoadAddr]
          if EFI_ERROR env.allocPagesStatus then
            ⟨env.allocPagesStatus, none, some kernel_size,
              tr3 ++ [Event.print, Event.freePool, Event.closeFile]⟩
          else
            let tr4 := tr3 ++ [Event.readFile kernel_size]
            if EFI_ERROR env.readStatus ∨ env.readCount ≠ kernel_size then
              ⟨EFI_DEVICE_ERROR, none, some kernel_size,
                tr4 ++ [Event.print, Event.freePool, Event.closeFile]⟩
            else
              let entry := resolve_entry kernel_size env.fileBytes LoadAddr
              ⟨EFI_SUCCESS, some entry, some kernel_size,
                tr4 ++ [Event.print, Event.freePool, Event.closeFile]⟩

/-! ## `UefiMain` (UefiMain.c lines 177–234) -/

/-- The fixed virtual-to-physical offset constant `PHYS_OFFSET`
(line 215). -/
def PHYS_OFFSET : Nat := 0xFFFF800000000000

/-- `sizeof(BOOT_INFO)` on x86_64: pointer (8) + two `UINTN` (8 each) +
`UINT32` padded to 8 + two `UINT64` (8 each) = 48 bytes. -/
def sizeofBOOT_INFO : Nat := 48

/-- Firmware behaviour for a whole `UefiMain` run. -/
structure MainEnv where
  /-- Environment of the `load_kernel_to_1m` call. -/
  load : LoadEnv
  /-- Environment of the `get_and_copy_memory_map` call. -/
  mem : MemMapEnv
  /-- Whether `AllocatePool(sizeof(BOOT_INFO))` returns non-NULL. -/
  biAllocOk : Bool
  /-- Status of `gBS->ExitBootServices`. -/
  ebsStatus : Nat
  deriving Repr

/-- `UefiMain` (lines 177–234), translated branch by branch: load the
kernel (abort on error), print, capture the memory map (abort on error),
`AllocatePool` the `BOOT_INFO` record (abort if NULL), populate it from
the captured map, `PHYS_OFFSET` and the resolved entry, call
`ExitBootServices` with the captured map key (abort on error), and on
success transfer control to the resolved entry with the record as the one
argument.  The locals `mem_map_size`, `desc_size`, `desc_version` and
`map_key` are zero-initialised (lines 191–195) and only overwritten when
`get_and_copy_memory_map` writes its outputs, hence the `Option.getD`
with the all-zero record.  Result: (returned status, event trace). -/
def UefiMain (env : MainEnv) : Nat × List Event :=
  let L := load_kernel_to_1m env.load
  if EFI_ERROR L.status then
    (L.status, L.trace ++ [Event.print])
  else
    let tr1 := L.trace ++ [Event.print]
    let M := get_and_copy_memory_map env.mem
    if EFI_ERROR M.1 then
      (M.1, tr1 ++ M.2.2 ++ [Event.print])
    else
      let tr2 := tr1 ++ M.2.2 ++ [Event.allocatePool sizeofBOOT_INFO]
      if env.biAllocOk = false then
        (EFI_OUT_OF_RESOURCES, tr2 ++ [Event.print])
      else
        let o := M.2.1.getD ⟨0, 0, 0, 0⟩
        let bi : BOOT_INFO :=
          ⟨o.map_size, o.descriptor_size, o.descriptor_version,
           PHYS_OFFSET, L.entry.getD 0⟩
        let tr3 := tr2 ++ [Event.exitBootServices o.map_key]
        if EFI_ERROR env.ebsStatus then
          (env.ebsStatus, tr3 ++ [Event.print])
        else
          (EFI_SUCCESS, tr3 ++ [Event.kernelCall bi.kernel_entry_phys bi])

/-! ## Trace queries used by the ordering claims -/

/-- The events strictly after the last `GetMemoryMap` call and strictly
before the following `ExitBootServices` call (empty when either is
absent). -/
def betweenLastMapAndEBS (tr : List Event) : List Event :=
  ((tr.reverse.takeWhile (fun e => !e.isGetMemoryMap)).reverse).takeWhile
    (fun e => !e.isEBS)

/-- The events strictly after the (first) `ExitBootServices` call. -/
def eventsAfterEBS (tr : List Event) : List Event :=
  (tr.dropWhile (fun e => !e.isEBS)).drop 1

/-! ## Concrete environments used by witnesses and counterexamples -/

/-- A fully successful firmware environment for `load_kernel_to_1m`: every
service succeeds and a 4096-byte flat (non-ELF) kernel file is read in
full. -/
def envLoad0 : LoadEnv :=
  { hpLoadedImage := 0, hpSimpleFs := 0, openVolumeStatus := 0, openFileStatus := 0,
    infoProbeStatus := EFI_BUFFER_TOO_SMALL, fileInfoSize := 80, fileInfoAllocOk := true,
    getInfoStatus := 0, fileSize := 4096, allocPagesStatus := 0,
    readStatus := 0, readCount := 4096, fileBytes := List.replicate 4096 0 }

/-- A fully successful firmware environment for `get_and_copy_memory_map`:
the probe reports 4096 bytes needed with a 48-byte descriptor stride
(the spec's concrete scenario 3). -/
def envMem0 : MemMapEnv :=
  { probeStatus := EFI_BUFFER_TOO_SMALL, probeSize := 4096, probeDescSize := 48,
    allocOk := true, fetchStatus := 0, fetchSize := 4000, fetchDescSize := 48,
    fetchDescVer := 1, fetchKey := 42 }

/-- A fully successful firmware environment for a whole `UefiMain` run. -/
def env0 : MainEnv :=
  { load := envLoad0, mem := envMem0, biAllocOk := true, ebsStatus := 0 }

/-- The 8192-byte buffer of the spec's concrete scenario 2: ELF magic,
then zeroes up to offset 24, entry-field bytes `00 10 00 00 00 00 00 00`,
then zeroes. -/
def buf8192 : List Nat :=
  [0x7f, 0x45, 0x4c, 0x46] ++ List.replicate 20 0 ++
  [0x00, 0x10, 0, 0, 0, 0, 0, 0] ++ List.replicate 8160 0

/-- A 64-byte ELF buffer with entry field 1, used to witness the magic
branch of the entry resolver. -/
def bufElf64 : List Nat :=
  [0x7f, 0x45, 0x4c, 0x46] ++ List.replicate 20 0 ++
  [1, 0, 0, 0, 0, 0, 0, 0] ++ List.replicate 32 0

/-! ## Helper lemmas about traces -/

/-- No branch of `load_kernel_to_1m` ever calls `ExitBootServices`. -/
theorem load_trace_no_ebs (env : LoadEnv) :
    ∀ e ∈ (load_kernel_to_1m env).trace, e.isEBS = false := by
  have h : ((load_kernel_to_1m env).trace.all (fun e => !e.isEBS)) = true := by
    unfold load_kernel_to_1m
    split_ifs <;> try rfl
    all_goals dsimp only
    all_goals split <;> rfl
  intro e he
  have h2 := List.all_eq_true.mp h e he
  simpa using h2

/-- No branch of `get_and_copy_memory_map` ever calls `ExitBootServices`. -/
theorem memmap_trace_no_ebs (env : MemMapEnv) :
    ∀ e ∈ (get_and_copy_memory_map env).2.2, e.isEBS = false := by
  have h : ((get_and_copy_memory_map env).2.2.all (fun e => !e.isEBS)) = true := by
    unfold get_and_copy_memory_map
    split_ifs <;> rfl
  intro e he
  have h2 := List.all_eq_true.mp h e he
  simpa using h2

/-- `eventsAfterEBS` skips a prefix containing no `ExitBootServices`
event. -/
theorem eventsAfterEBS_append (t1 t2 : List Event)
    (h : ∀ e ∈ t1, e.isEBS = false) :
    eventsAfterEBS (t1 ++ t2) = eventsAfterEBS t2 := by
  unfold eventsAfterEBS
  rw [List.dropWhile_append]
  have hnil : t1.dropWhile (fun e => !e.isEBS) = [] := by
    rw [List.dropWhile_eq_nil_iff]
    intro e he
    simp [h e he]
  simp [hnil]

/-! ## Claims -/

/-- C2: for every loaded byte buffer whose first 4 bytes are the ELF magic
and whose length is at least 64, the resolved entry is the 8-byte
little-endian value at offset 24; for every other buffer the resolved
entry equals the fixed load base address (1 MiB). -/
theorem c2_entry_resolution (bytes : List Nat) :
    (64 ≤ bytes.length ∧ isElfMagic bytes →
      resolve_entry bytes.length bytes LoadAddr = le64_at bytes 24) ∧
    (¬(64 ≤ bytes.length ∧ isElfMagic bytes) →
      resolve_entry bytes.length bytes LoadAddr = LoadAddr) := by
  unfold resolve_entry
  constructor
  · intro h; rw [if_pos h]
  · intro h; rw [if_neg h]

/-- C2 witness: the ELF branch at a concrete 64-byte ELF buffer and the
flat-binary branch at a concrete 1-byte buffer. -/
theorem c2_entry_resolution_witness :
    resolve_entry bufElf64.length bufElf64 LoadAddr = le64_at bufElf64 24 ∧
    resolve_entry ([0] : List Nat).length [0] LoadAddr = LoadAddr :=
  ⟨(c2_entry_resolution bufElf64).1 (by decide),
   (c2_entry_resolution [0]).2 (by decide)⟩

/-- C3 counterexample: on the 8192-byte ELF buffer with entry-field bytes
`00 10 00 00 00 00 00 00` at offset 24, the resolved entry is the raw
field value 0x1000, not the load base plus 0x1000 (0x101000) as the claim
states. -/
theorem c3_counterexample :
    buf8192.length = 8192 ∧
    resolve_entry 8192 buf8192 LoadAddr ≠ LoadAddr + 0x1000 := by
  constructor
  · simp only [buf8192, List.length_append, List.length_replicate, List.length_cons,
      List.length_nil]
  · decide

/-- C3 (amended): on that buffer the resolved entry equals 0x1000, the
8-byte little-endian value stored at offset 24, taken as an absolute
address (the load base is not added). -/
theorem c3_entry_is_raw_field :
    resolve_entry 8192 buf8192 LoadAddr = 0x1000 := by decide

/-- C5 counterexample: at file size `2^64 - 1` the 64-bit addition
`kernel_size + 0xFFF` wraps, so the computed page count is 1 rather than
the size rounded up to a page boundary divided by the page size. -/
theorem c5_counterexample :
    pages_for (2 ^ 64 - 1) = 1 ∧
    ((2 ^ 64 - 1) + 0xFFF) / 0x1000 ≠ 1 := by
  constructor
  · decide
  · decide

/-- C5 (amended): for every kernel file size small enough that
`kernel_size + 0xFFF` does not wrap at 64 bits, the computed page count is
the size rounded up to the next page boundary divided by 0x1000, with
sizes below one page (including 0) giving exactly 1 page and multiples of
the page size giving exactly `size / 0x1000` pages. -/
theorem c5_pages_rounding (n : Nat) (h : n + 0xFFF < 2 ^ 64) :
    (n < 0x1000 → pages_for n = 1) ∧
    (0 < n → n % 0x1000 = 0 → pages_for n = n / 0x1000) ∧
    (0 < n → pages_for n = (n + 0xFFF) / 0x1000) := by
  have hm : (n + 0xFFF) % 2 ^ 64 = n + 0xFFF := Nat.mod_eq_of_lt h
  unfold pages_for
  dsimp only
  rw [hm]
  split_ifs with hp
  · exact ⟨fun _ => rfl, fun h1 h2 => by omega, fun h1 => by omega⟩
  · exact ⟨fun h1 => by omega, fun h1 h2 => by omega, fun h1 => rfl⟩

/-- C5 witness: a 4096-byte file needs exactly one page and a 100-byte
file rounds up to one page. -/
theorem c5_pages_rounding_witness :
    pages_for 4096 = 4096 / 0x1000 ∧ pages_for 100 = 1 :=
  ⟨(c5_pages_rounding 4096 (by decide)).2.1 (by decide) (by decide),
   (c5_pages_rounding 100 (by decide)).1 (by decide)⟩

/-- A probe environment whose reported minimum size makes the 64-bit
`map_size += descriptor_size * 10` computation wrap. -/
def envMemHuge : MemMapEnv :=
  { probeStatus := EFI_BUFFER_TOO_SMALL, probeSize := 2 ^ 64 - 1, probeDescSize := 48,
    allocOk := true, fetchStatus := 0, fetchSize := 0, fetchDescSize := 48,
    fetchDescVer := 1, fetchKey := 0 }

/-- C6 counterexample: when the probe reports `2^64 - 1` bytes needed with
stride 48, the 64-bit size computation wraps and the phase-2 buffer is
requested at 479 bytes, far below `S + 10*D`. -/
theorem c6_counterexample :
    ((get_and_copy_memory_map envMemHuge).2.2.filter Event.isAllocPool) =
      [Event.allocatePool 479] ∧
    479 < envMemHuge.probeSize + envMemHuge.probeDescSize * 10 := by
  constructor
  · decide
  · decide

/-- C6 (amended): whenever the phase-1 probe reports minimum size `S` and
stride `D` with `S + D*10` below `2^64` (no 64-bit wrap), the phase-2
buffer is requested at exactly `S + D*10` bytes — in particular at least
`S + 10*D`. -/
theorem c6_phase2_margin (env : MemMapEnv)
    (hp : env.probeStatus = EFI_BUFFER_TOO_SMALL)
    (hno : env.probeSize + env.probeDescSize * 10 < 2 ^ 64) :
    ((get_and_copy_memory_map env).2.2.filter Event.isAllocPool) =
      [Event.allocatePool (env.probeSize + env.probeDescSize * 10)] := by
  have h1 : ¬(env.probeStatus ≠ EFI_BUFFER_TOO_SMALL) := by simp [hp]
  unfold get_and_copy_memory_map
  rw [if_neg h1]
  dsimp only
  rw [Nat.mod_eq_of_lt hno]
  split_ifs <;> rfl

/-- C6 witness: the spec's concrete scenario 3 — probe reports 4096 bytes
with stride 48, so the phase-2 buffer is requested at
4096 + 48*10 = 4576 bytes. -/
theorem c6_phase2_margin_witness :
    ((get_and_copy_memory_map envMem0).2.2.filter Event.isAllocPool) =
      [Event.allocatePool (envMem0.probeSize + envMem0.probeDescSize * 10)] :=
  c6_phase2_margin envMem0 (by decide) (by decide)

/-- C10: if the phase-2 memory-map fetch fails after the buffer allocation
succeeded, `get_and_copy_memory_map` frees the buffer and returns the
fetch error with none of its five output parameters written; and in every
environment the outputs are written only when the function returns
`EFI_SUCCESS`. -/
theorem c10_fetch_failure_frees_and_writes_nothing (env : MemMapEnv)
    (hp : env.probeStatus = EFI_BUFFER_TOO_SMALL)
    (ha : env.allocOk = true)
    (hf : EFI_ERROR env.fetchStatus) :
    (get_and_copy_memory_map env).1 = env.fetchStatus ∧
    (get_and_copy_memory_map env).2.1 = none ∧
    (get_and_copy_memory_map env).2.2 =
      [Event.getMemoryMap 0,
       Event.allocatePool ((env.probeSize + env.probeDescSize * 10) % 2 ^ 64),
       Event.getMemoryMap ((env.probeSize + env.probeDescSize * 10) % 2 ^ 64),
       Event.freePool] ∧
    (∀ env' : MemMapEnv, ((get_and_copy_memory_map env').2.1).isSome = true →
      (get_and_copy_memory_map env').1 = EFI_SUCCESS) := by
  have h1 : ¬(env.probeStatus ≠ EFI_BUFFER_TOO_SMALL) := by simp [hp]
  have h2 : ¬(env.allocOk = false) := by simp [ha]
  unfold get_and_copy_memory_map
  rw [if_neg h1]
  dsimp only
  rw [if_neg h2, if_pos hf]
  refine ⟨rfl, rfl, rfl, ?_⟩
  intro env' hsome
  split_ifs at hsome ⊢ <;> simp_all

/-- C10 witness: with a successful probe and allocation but a failing
phase-2 fetch, the buffer is freed, the error is returned and no outputs
are written. -/
theorem c10_witness :
    (get_and_copy_memory_map { envMem0 with fetchStatus := EFI_INVALID_PARAMETER }).1 =
      EFI_INVALID_PARAMETER ∧
    (get_and_copy_memory_map { envMem0 with fetchStatus := EFI_INVALID_PARAMETER }).2.1 =
      none := by
  have h := c10_fetch_failure_frees_and_writes_nothing
    { envMem0 with fetchStatus := EFI_INVALID_PARAMETER } (by decide) (by decide) (by decide)
  exact ⟨h.1, h.2.1⟩

/-- The run of `load_kernel_to_1m` gets as far as the `AllocatePages`
call: every earlier firmware call came back non-fatal. -/
def reachesAllocPages (env : LoadEnv) : Prop :=
  ¬ EFI_ERROR env.hpLoadedImage ∧ ¬ EFI_ERROR env.hpSimpleFs ∧
  ¬ EFI_ERROR env.openVolumeStatus ∧ ¬ EFI_ERROR env.openFileStatus ∧
  ¬ (env.infoProbeStatus ≠ EFI_BUFFER_TOO_SMALL ∧ EFI_ERROR env.infoProbeStatus) ∧
  env.fileInfoAllocOk = true ∧ ¬ EFI_ERROR env.getInfoStatus

instance (env : LoadEnv) : Decidable (reachesAllocPages env) := by
  unfold reachesAllocPages; infer_instance

/-- The run of `load_kernel_to_1m` gets as far as the `Read` call: every
earlier firmware call, including `AllocatePages`, came back non-fatal. -/
def reachesRead (env : LoadEnv) : Prop :=
  reachesAllocPages env ∧ ¬ EFI_ERROR env.allocPagesStatus

instance (env : LoadEnv) : Decidable (reachesRead env) := by
  unfold reachesRead; infer_instance

/-- C7: whenever the run reaches the file read and the read fails or
returns fewer bytes than the file's reported size, `load_kernel_to_1m`
returns `EFI_DEVICE_ERROR` and never writes the resolved-entry output. -/
theorem c7_short_read_is_device_error (env : LoadEnv) (hr : reachesRead env)
    (hshort : EFI_ERROR env.readStatus ∨ env.readCount < env.fileSize) :
    (load_kernel_to_1m env).status = EFI_DEVICE_ERROR ∧
    (load_kernel_to_1m env).entry = none := by
  obtain ⟨⟨h1, h2, h3, h4, h5, h6, h7⟩, h8⟩ := hr
  have h6' : ¬(env.fileInfoAllocOk = false) := by simp [h6]
  have hcond : EFI_ERROR env.readStatus ∨ env.readCount ≠ env.fileSize := by
    rcases hshort with h | h
    · exact Or.inl h
    · exact Or.inr (Nat.ne_of_lt h)
  unfold load_kernel_to_1m
  dsimp only
  rw [if_neg h1, if_neg h2, if_neg h3, if_neg h4, if_neg h5, if_neg h6', if_neg h7,
    if_neg h8, if_pos hcond]
  exact ⟨rfl, rfl⟩

/-- C7 witness: a run in which every firmware call succeeds but the read
returns 100 of the 4096 reported bytes ends in `EFI_DEVICE_ERROR` with no
resolved entry. -/
theorem c7_short_read_is_device_error_witness :
    (load_kernel_to_1m { envLoad0 with readCount := 100 }).status = EFI_DEVICE_ERROR ∧
    (load_kernel_to_1m { envLoad0 with readCount := 100 }).entry = none :=
  c7_short_read_is_device_error { envLoad0 with readCount := 100 }
    (by decide) (by decide)

/-- C8: whenever the run reaches the page allocation, the kernel pages are
requested exactly once, at the fixed physical address 0x00100000 (1 MiB)
in `AllocateAddress` (exact-address) mode; and if that allocation fails
the loader returns the failure and never resolves an entry (no relocation
is attempted). -/
theorem c8_exact_address_allocation (env : LoadEnv) (hr : reachesAllocPages env) :
    ((load_kernel_to_1m env).trace.filter Event.isAllocPages) =
      [Event.allocatePages AllocMode.allocateAddress (pages_for env.fileSize) 0x00100000] ∧
    (EFI_ERROR env.allocPagesStatus →
      (load_kernel_to_1m env).status = env.allocPagesStatus ∧
      (load_kernel_to_1m env).entry = none) := by
  obtain ⟨h1, h2, h3, h4, h5, h6, h7⟩ := hr
  have h6' : ¬(env.fileInfoAllocOk = false) := by simp [h6]
  unfold load_kernel_to_1m
  dsimp only
  rw [if_neg h1, if_neg h2, if_neg h3, if_neg h4, if_neg h5, if_neg h6', if_neg h7]
  split_ifs with hap hread
  · exact ⟨rfl, fun _ => ⟨rfl, rfl⟩⟩
  · exact ⟨rfl, fun hc => absurd hc hap⟩
  · exact ⟨rfl, fun hc => absurd hc hap⟩

/-- C8 witness: with the exact-address allocation refused
(`EFI_OUT_OF_RESOURCES`), the single `AllocatePages` request was for
1 MiB in exact mode and the loader aborts with that status and no
entry. -/
theorem c8_exact_address_allocation_witness :
    ((load_kernel_to_1m { envLoad0 with allocPagesStatus := EFI_OUT_OF_RESOURCES }).trace.filter
        Event.isAllocPages) =
      [Event.allocatePages AllocMode.allocateAddress
        (pages_for ({ envLoad0 with allocPagesStatus := EFI_OUT_OF_RESOURCES } : LoadEnv).fileSize)
        0x00100000] ∧
    (load_kernel_to_1m { envLoad0 with allocPagesStatus := EFI_OUT_OF_RESOURCES }).status =
      EFI_OUT_OF_RESOURCES ∧
    (load_kernel_to_1m { envLoad0 with allocPagesStatus := EFI_OUT_OF_RESOURCES }).entry =
      none := by
  have h := c8_exact_address_allocation
    { envLoad0 with allocPagesStatus := EFI_OUT_OF_RESOURCES } (by decide)
  exact ⟨h.1, (h.2 (by decide)).1, (h.2 (by decide)).2⟩

/-- C1 (claim refuted on the code): in a fully successful run, the events
between the final `GetMemoryMap` query and the `ExitBootServices` call
are not empty — they are exactly the `AllocatePool(sizeof(BOOT_INFO))`
firmware allocation (UefiMain.c line 204), so the memory-map snapshot is
not the last resource-acquiring operation before termination. -/
theorem c1_allocation_between_snapshot_and_exit :
    betweenLastMapAndEBS (UefiMain env0).2 = [Event.allocatePool sizeofBOOT_INFO] ∧
    (betweenLastMapAndEBS (UefiMain env0).2).any Event.isAlloc = true ∧
    Event.exitBootServices 42 ∈ (UefiMain env0).2 := by
  refine ⟨by decide, by decide, by decide⟩

/-- C4: when the phase-1 memory-map size probe returns any status other
than `EFI_BUFFER_TOO_SMALL` (per the UEFI contract a zero-sized buffer
query cannot succeed, so that status is an error status), the loader
returns that status, its trace ends right after the probe and the failure
diagnostic, and `ExitBootServices` is never called — in particular the
handoff record is never allocated or built. -/
theorem c4_probe_other_status_is_fatal (env : MainEnv)
    (hload : ¬ EFI_ERROR (load_kernel_to_1m env.load).status)
    (hprobe : env.mem.probeStatus ≠ EFI_BUFFER_TOO_SMALL)
    (herr : EFI_ERROR env.mem.probeStatus) :
    (UefiMain env).1 = env.mem.probeStatus ∧
    (UefiMain env).2 =
      (load_kernel_to_1m env.load).trace ++ [Event.print] ++
        [Event.getMemoryMap 0] ++ [Event.print] ∧
    ∀ e ∈ (UefiMain env).2, e.isEBS = false := by
  have hm : get_and_copy_memory_map env.mem =
      (env.mem.probeStatus, none, [Event.getMemoryMap 0]) := by
    unfold get_and_copy_memory_map
    rw [if_pos hprobe]
  unfold UefiMain
  dsimp only
  rw [if_neg hload, hm]
  dsimp only
  rw [if_pos herr]
  refine ⟨rfl, by simp, ?_⟩
  intro e he
  simp only [List.mem_append, List.mem_cons, List.not_mem_nil, or_false] at he
  rcases he with ((he | rfl) | rfl) | rfl
  · exact load_trace_no_ebs env.load e he
  · rfl
  · rfl
  · rfl

/-- An environment in which loading succeeds but the phase-1 probe comes
back `EFI_INVALID_PARAMETER`. -/
def envC4 : MainEnv :=
  { load := envLoad0,
    mem := { envMem0 with probeStatus := EFI_INVALID_PARAMETER },
    biAllocOk := true, ebsStatus := 0 }

/-- C4 witness: with the probe returning `EFI_INVALID_PARAMETER` the run
stops right after the probe with that status. -/
theorem c4_probe_other_status_is_fatal_witness :
    (UefiMain envC4).1 = EFI_INVALID_PARAMETER ∧
    (UefiMain envC4).2 =
      (load_kernel_to_1m envC4.load).trace ++ [Event.print] ++
        [Event.getMemoryMap 0] ++ [Event.print] := by
  have h := c4_probe_other_status_is_fatal envC4 (by decide) (by decide) (by decide)
  exact ⟨h.1, h.2.1⟩

/-- C9: in every run in which `UefiMain` reaches a successful
`ExitBootServices`, the only event after the `ExitBootServices` call is
the single control transfer: the resolved entry address invoked with
exactly one argument, the handoff record populated from the captured
memory-map geometry, the fixed `PHYS_OFFSET` constant and the resolved
entry; no firmware service (logging, allocation, file I/O) follows. -/
theorem c9_after_exit_only_kernel_call (env : MainEnv)
    (h : (UefiMain env).1 = EFI_SUCCESS) :
    eventsAfterEBS (UefiMain env).2 =
      [Event.kernelCall ((load_kernel_to_1m env.load).entry.getD 0)
        ⟨((get_and_copy_memory_map env.mem).2.1.getD ⟨0, 0, 0, 0⟩).map_size,
         ((get_and_copy_memory_map env.mem).2.1.getD ⟨0, 0, 0, 0⟩).descriptor_size,
         ((get_and_copy_memory_map env.mem).2.1.getD ⟨0, 0, 0, 0⟩).descriptor_version,
         PHYS_OFFSET,
         (load_kernel_to_1m env.load).entry.getD 0⟩] := by
  have hpre : ∀ e ∈ ((load_kernel_to_1m env.load).trace ++ [Event.print] ++
      (get_and_copy_memory_map env.mem).2.2 ++ [Event.allocatePool sizeofBOOT_INFO]),
      e.isEBS = false := by
    intro e he
    simp only [List.mem_append, List.mem_cons, List.not_mem_nil, or_false] at he
    rcases he with ((he | rfl) | he) | rfl
    · exact load_trace_no_ebs env.load e he
    · rfl
    · exact memmap_trace_no_ebs env.mem e he
    · rfl
  unfold UefiMain at h ⊢
  dsimp only at h ⊢
  split_ifs at h ⊢ with h1 h2 h3 h4
  · exact absurd h (by unfold EFI_ERROR at h1; unfold EFI_SUCCESS; omega)
  · exact absurd h (by unfold EFI_ERROR at h2; unfold EFI_SUCCESS; omega)
  · dsimp only at h
    exact absurd h (by decide)
  · exact absurd h (by unfold EFI_ERROR at h4; unfold EFI_SUCCESS; omega)
  · rw [List.append_assoc]
    rw [eventsAfterEBS_append _ _ hpre]
    rfl

/-- C9 witness: in the fully successful run the events after
`ExitBootServices` are exactly the one kernel call carrying the populated
handoff record. -/
theorem c9_after_exit_only_kernel_call_witness :
    eventsAfterEBS (UefiMain env0).2 =
      [Event.kernelCall ((load_kernel_to_1m env0.load).entry.getD 0)
        ⟨((get_and_copy_memory_map env0.mem).2.1.getD ⟨0, 0, 0, 0⟩).map_size,
         ((get_and_copy_memory_map env0.mem).2.1.getD ⟨0, 0, 0, 0⟩).descriptor_size,
         ((get_and_copy_memory_map env0.mem).2.1.getD ⟨0, 0, 0, 0⟩).descriptor_version,
         PHYS_OFFSET,
         (load_kernel_to_1m env0.load).entry.getD 0⟩] :=
  c9_after_exit_only_kernel_call env0 (by decide)

end Nullex
